import Mathlib

/-!
Verification development for the transport / framing / dispatch core of the
`kik_unofficial` client (`src/kik_unofficial/client.py`).

The Python code is shallowly embedded: byte strings become `List Nat` (one
natural per byte), the framing state machine of `KikConnection` becomes a pure
step function threading its state explicitly, fallible Python code (attribute
access that can raise `KeyError` / `TypeError`, jid validation raising
`KikApiException`) returns `Except`, and external collaborators (the
BeautifulSoup XML parser, the per-extension serializers) are taken as
parameters or abstracted into symbolic payload values.
-/

namespace KikSpec

/-- Byte strings are modelled as lists of naturals, one per byte.
Relevant byte values: 60 is the byte of the left angle bracket, 62 the right
angle bracket, 47 the slash, 32 the ASCII space. -/
abbrev Bytes := List Nat

/-- `takeUntil sep l` models the Python expression `l.split(sep)[0]`:
the longest prefix of `l` not containing the one-byte separator `sep`. -/
def takeUntil (sep : Nat) (l : Bytes) : Bytes :=
  l.takeWhile (fun b => b != sep)

/-- `KikConnection.parse_start_tag` (client.py lines 663-671):
`tag = data.lstrip(b'<')`, then `tag = tag.split(b'>')[0]`, then
`tag = tag.split(b' ')[0]`; `is_closing = tag.endswith(b'/')` and if so the
trailing slash is removed (`tag[:-1]`). -/
def parse_start_tag (data : Bytes) : Bytes × Bool :=
  let t1 := data.dropWhile (fun b => b == 60)
  let t2 := takeUntil 62 t1
  let t3 := takeUntil 32 t2
  let is_closing := t3.getLast? == some 47
  (if is_closing then t3.dropLast else t3, is_closing)

/-- `KikConnection.ends_with_tag` (client.py lines 673-675):
`data.endswith(b'</' + expected_end_tag + b'>')`. -/
def ends_with_tag (expected_end_tag : Bytes) (data : Bytes) : Bool :=
  (60 :: 47 :: (expected_end_tag ++ [62])).isSuffixOf data

/-- The `KikConnection` framing state: `partial_data` together with
`partial_data_start_tag`. In the Python code both fields are `None` exactly
together, so we model the pair as one `Option`: `none` when no reassembly is
in progress, and `some (buffer, tag)` while one is. -/
abbrev FramerState := Option (Bytes × Bytes)

/-- `KikConnection.data_received` (client.py lines 644-661), as one pure step:
given the framing state and the newly received chunk it returns the new state
together with the list of byte blocks handed to
`KikClient._on_new_data_received` (via `call_soon_threadsafe`). -/
def data_received (st : FramerState) (data : Bytes) : FramerState × List Bytes :=
  match st with
  | none =>
    if data.length < 16384 then
      (none, [data])
    else
      (some (data, (parse_start_tag data).1), [])
  | some (buf, tag) =>
    if ends_with_tag tag data then
      (none, [buf ++ data])
    else
      (some (buf ++ data, tag), [])

/-- Folds `data_received` over a list of chunks delivered in order,
concatenating the dispatched blocks. -/
def run_framer (st : FramerState) : List Bytes → FramerState × List Bytes
  | [] => (st, [])
  | c :: cs =>
    let step := data_received st c
    let rest := run_framer step.1 cs
    (rest.1, step.2 ++ rest.2)

/-- A 16384-byte chunk used as a concrete test vector: the bytes of
`<iq` followed by 16381 spaces. Its start tag per `parse_start_tag` is
`iq` (bytes `[105, 113]`). -/
def big_chunk : Bytes := 60 :: 105 :: 113 :: List.replicate 16381 32

/-- Errors a Python expression can raise in the embedded fragment:
`KeyError` from `tag[key]` / `dict[key]` when the key is missing, and
`TypeError` from subscripting `None` (e.g. `iq_element.query['xmlns:']`
when the `iq` stanza has no `query` child). -/
inductive PyErr
  | keyError
  | typeError
deriving DecidableEq, Repr

/-- The nested `query` node of an `iq` stanza, as far as dispatch needs it:
only its `xmlns:` attribute (which may be absent). -/
structure QueryNode where
  xmlns : Option String
deriving DecidableEq, Repr

/-- A decoded top-level stanza, as produced by the external XML parser
(BeautifulSoup is an external collaborator; only the fields the dispatch
code reads are modelled): the tag name, the attribute map, whether a `g`
descendant exists (`xmpp_message.g` truthiness), and the first `query`
descendant, if any. -/
structure Stanza where
  name : String
  attrs : List (String × String)
  hasG : Bool
  query : Option QueryNode
deriving DecidableEq, Repr

/-- `stanza[key]` without the raise: `none` when the attribute is missing. -/
def lookupAttr (s : Stanza) (key : String) : Option String :=
  s.attrs.lookup key

/-- Python `key in stanza.attrs`. -/
def hasAttr (s : Stanza) (key : String) : Bool :=
  (lookupAttr s key).isSome

/-- Observable effects of routing one stanza: handler invocations and
callback firings.  `invokeHandler ns s` stands for
`self.xml_namespace_handlers[ns].handle(s)`; the remaining constructors
stand for the named callback / request emissions. -/
inductive Action
  | invokeHandler (xmlns : String) (s : Stanza)
  | groupReceiptsCallback (s : Stanza)
  | captchaCallback (s : Stanza)
  | onAuthenticated
  | onConnectionFailed (s : Stanza)
  | loginRequest
deriving DecidableEq, Repr

/-- The keys of `self.xml_namespace_handlers` built in `KikClient.__init__`
(client.py lines 65-74). -/
def xml_namespace_handler_keys : List String :=
  ["kik:iq:check-unique", "jabber:iq:register", "jabber:iq:roster",
   "jabber:client", "kik:groups", "kik:iq:friend", "kik:iq:friend:batch",
   "kik:iq:xiphias:bridge"]

/-- `KikClient._handle_xmlns` (client.py lines 571-575): unknown namespaces
are logged and dropped (no action), known ones invoke the registered
handler. -/
def handle_xmlns (xmlns : String) (message : Stanza) : List Action :=
  if xmlns ∈ xml_namespace_handler_keys then [.invokeHandler xmlns message]
  else []

/-- `KikClient._handle_xmpp_message` (client.py lines 544-560).
Note that when the `xmlns` attribute is absent the code evaluates
`xmpp_message['type']`, which raises `KeyError` if the `type` attribute is
also absent. -/
def handle_xmpp_message (m : Stanza) : Except PyErr (List Action) :=
  match lookupAttr m "xmlns" with
  | some ns => .ok (handle_xmlns ns m)
  | none =>
    match lookupAttr m "type" with
    | none => .error .keyError
    | some t =>
      if t = "receipt" then
        if m.hasG then .ok [.groupReceiptsCallback m]
        else .ok [.invokeHandler "jabber:client" m]
      else .ok [.invokeHandler "jabber:client" m]

/-- `KikClient._handle_received_iq_element` (client.py lines 533-542):
`self._handle_xmlns(iq_element.query['xmlns:'], iq_element)`.
Subscripting a missing `query` child raises `TypeError`; a `query` child
without the `xmlns:` attribute raises `KeyError`. -/
def handle_received_iq_element (m : Stanza) : Except PyErr (List Action) :=
  match m.query with
  | none => .error .typeError
  | some q =>
    match q.xmlns with
    | none => .error .keyError
    | some ns => .ok (handle_xmlns ns m)

/-- The mutable handshake flags of `KikClient` read or written by
`_handle_received_k_element`. -/
structure AuthState where
  connected : Bool
  authenticated : Bool
  shouldLoginOnConnection : Bool
deriving DecidableEq, Repr

/-- `KikClient.__init__` line 62:
`self.should_login_on_connection = kik_username is not None and kik_password is not None`.
The `kik_node` argument is accepted (mirroring the constructor signature)
but, as in the source, not consulted. -/
def should_login_on_connection_init
    (kik_username kik_password _kik_node : Option String) : Bool :=
  kik_username.isSome && kik_password.isSome

/-- `KikClient._handle_received_k_element` (client.py lines 512-531).
`k_element['ok']` raises `KeyError` when the `ok` attribute is missing;
otherwise: on `ok = "1"` set `connected`; with a `ts` attribute set
`authenticated` and fire `on_authenticated`; else if the deferred-login
flag is set, issue the login request and clear the flag; on `ok ≠ "1"`
fire `on_connection_failed`. -/
def handle_received_k_element (st : AuthState) (k : Stanza) :
    Except PyErr (AuthState × List Action) :=
  match lookupAttr k "ok" with
  | none => .error .keyError
  | some ok =>
    if ok = "1" then
      let st1 := { st with connected := true }
      if hasAttr k "ts" then
        .ok ({ st1 with authenticated := true }, [.onAuthenticated])
      else if st1.shouldLoginOnConnection then
        .ok ({ st1 with shouldLoginOnConnection := false }, [.loginRequest])
      else
        .ok (st1, [])
    else
      .ok (st, [.onConnectionFailed k])

/-- One `k` element processed inside one asyncio callback. An exception
raised inside the callback is logged by the event loop and does not stop
later callbacks; since `k_element['ok']` is evaluated before any mutation,
a raising element leaves the state unchanged and emits nothing. -/
def k_step (st : AuthState) (k : Stanza) : AuthState × List Action :=
  match handle_received_k_element st k with
  | .error _ => (st, [])
  | .ok r => r

/-- Processes a list of `k` stanzas in order, one asyncio callback each.
Returns the final state and the per-element action lists. -/
def run_k (st : AuthState) : List Stanza → AuthState × List (List Action)
  | [] => (st, [])
  | k :: ks =>
    let step := k_step st k
    let rest := run_k step.1 ks
    (rest.1, step.2 :: rest.2)

/-- The stanza was a success acknowledgement without the session-timestamp
attribute: `ok = "1"` and no `ts`. -/
def success_no_ts (k : Stanza) : Bool :=
  (lookupAttr k "ok" == some "1") && !(hasAttr k "ts")

/-- Discriminates the login-request emission among routing actions. -/
def is_login_request : Action → Bool
  | .loginRequest => true
  | _ => false

/-- Total number of login requests emitted across a list of per-element
action lists. -/
def count_logins (outs : List (List Action)) : Nat :=
  (outs.map (fun acts => acts.countP is_login_request)).sum

/-- `KikClient._on_new_data_received` (client.py lines 488-510), one level
above the framer: a block equal to the single space byte is echoed back
(`send_raw_data(b' ')`) with no dispatch; anything else is parsed by the
external XML parser (taken here as a parameter `parse`) and routed by tag
name. Routing follows the source's two sequential conditionals: first
`if name == "k"`, then the `if "iq" / elif "message" / elif "stc"` chain. -/
def route_stanza (st : AuthState) (s : Stanza) :
    Except PyErr (AuthState × List Action) :=
  match (if s.name = "k" then handle_received_k_element st s else .ok (st, [])) with
  | .error e => .error e
  | .ok (st1, acts1) =>
    let tail : Except PyErr (List Action) :=
      if s.name = "iq" then handle_received_iq_element s
      else if s.name = "message" then handle_xmpp_message s
      else if s.name = "stc" then .ok [.captchaCallback s]
      else .ok []
    match tail with
    | .error e => .error e
    | .ok acts2 => .ok (st1, acts1 ++ acts2)

/-- Result of `_on_new_data_received` on one dispatched block: the updated
handshake state, the raw byte payloads written back to the transport, and
the routing actions performed. -/
structure RecvResult where
  state : AuthState
  sends : List Bytes
  actions : List Action
deriving DecidableEq, Repr

/-- `KikClient._on_new_data_received` itself. `parse` stands for
`BeautifulSoup(data.decode(), features='xml')` plus the first-child step —
an external collaborator supplied as a parameter. -/
def on_new_data_received (parse : Bytes → Stanza) (st : AuthState)
    (data : Bytes) : Except PyErr RecvResult :=
  if data = [32] then
    .ok ⟨st, [[32]], []⟩
  else
    match route_stanza st (parse data) with
    | .error e => .error e
    | .ok (st1, acts) => .ok ⟨st1, [], acts⟩

/-- One transport read end to end: `KikConnection.data_received` frames the
chunk, and every block it dispatches goes through
`KikClient._on_new_data_received`. (`data_received` dispatches at most one
block per chunk, so mapping over the block list loses no state threading.) -/
def connection_step (parse : Bytes → Stanza) (st : AuthState)
    (fst : FramerState) (data : Bytes) :
    FramerState × List (Except PyErr RecvResult) :=
  let step := data_received fst data
  (step.1, step.2.map (on_new_data_received parse st))

/-- An outbound element (`XMPPElement`): its correlation id `message_id`
and its serialization, which in the source is either a single byte payload
or a Python `list` of payloads (`type(message.serialize()) is list`). -/
structure OutElement where
  message_id : String
  serialized : Bytes ⊕ List Bytes

/-- `KikClient._send_xmpp_element` (client.py lines 469-486).
`connectedSamples` is the sequence of values the busy-wait
`while not self.connected: time.sleep(0.1)` reads from the `connected`
flag; the call returns (`some`) once a `true` is observed and otherwise
stays blocked (`none`). After the wait, each serialized payload is
marshaled onto the loop thread in order via `call_soon_threadsafe`, and
the element's `message_id` is returned. -/
def send_xmpp_element (connectedSamples : List Bool) (m : OutElement) :
    Option (List Bytes × String) :=
  if connectedSamples.any (fun b => b) then
    match m.serialized with
    | .inl p => some ([p], m.message_id)
    | .inr ps => some (ps, m.message_id)
  else none

/-- `KikApiException` (raised by `is_group_jid` for unrecognized
addresses). -/
inductive KikApiException
  | kikApiError (msg : String)
deriving DecidableEq, Repr

/-- Python substring containment `sub in s` (contiguous occurrence). -/
def containsSub (sub : List Char) : List Char → Bool
  | [] => sub.isEmpty
  | a :: rest => sub.isPrefixOf (a :: rest) || containsSub sub rest

/-- `KikClient.is_group_jid` (client.py lines 621-628). Note the source
uses Python `in`, i.e. substring containment, not a suffix test:
`'@talk.kik.com' in jid` → not a group; else `'@groups.kik.com' in jid`
→ a group; else raise `KikApiException('Not a valid jid')`. -/
def is_group_jid (jid : List Char) : Except KikApiException Bool :=
  if containsSub ("@talk.kik.com".toList) jid then .ok false
  else if containsSub ("@groups.kik.com".toList) jid then .ok true
  else .error (.kikApiError "Not a valid jid")

/-- `KikClient.send_chat_message` (client.py lines 152-167):
`is_group_jid` runs first on the caller thread; only then is the
(externally built) group or one-to-one element handed to
`_send_xmpp_element`. The two candidate elements are parameters because
their serializers live outside the core. -/
def send_chat_message (connectedSamples : List Bool) (peer_jid : List Char)
    (groupElem userElem : OutElement) :
    Except KikApiException (Option (List Bytes × String)) :=
  match is_group_jid peer_jid with
  | .error e => .error e
  | .ok true => .ok (send_xmpp_element connectedSamples groupElem)
  | .ok false => .ok (send_xmpp_element connectedSamples userElem)

/-- The credential fields of `KikClient` read by `_on_connection_made`. -/
structure ClientCreds where
  username : Option String
  password : Option String
  kik_node : Option String
deriving DecidableEq, Repr

/-- The one payload written on connection establishment. The
credential-proof payload is built by the external serializer
`login.EstablishAuthenticatedSessionRequest(...).serialize()`, so it is
kept symbolic; the anonymous constructor stands for the literal bytes of
`<k anon="">`. -/
inductive InitialPayload
  | establishAuthSession (kik_node username password : String)
  | anonymous
deriving DecidableEq, Repr

/-- `KikClient._on_connection_made` (client.py lines 84-98): if username,
password and node are all known, the session-establishment payload is
chosen; otherwise the anonymous-open literal. -/
def on_connection_made (st : ClientCreds) : InitialPayload :=
  match st.username, st.password, st.kik_node with
  | some u, some p, some n => .establishAuthSession n u p
  | _, _, _ => .anonymous

/-- The payloads written by `_on_connection_made`: exactly one call to
`send_raw_data(self.initial_connection_payload)`. -/
def on_connection_made_sends (st : ClientCreds) : List InitialPayload :=
  [on_connection_made st]

/-- `KikClient._establish_authenticated_session` (client.py lines 100-112):
records the discovered node, then tears the connection down and reconnects
(the reconnect re-runs `_on_connection_made` on the updated credentials). -/
def establish_authenticated_session (st : ClientCreds) (kik_node : String) :
    ClientCreds :=
  { st with kik_node := some kik_node }

set_option maxRecDepth 100000

/-! ### Helper lemmas -/

lemma big_chunk_length : big_chunk.length = 16384 := by
  simp only [big_chunk, List.length_cons, List.length_replicate]

lemma big_chunk_tag : (parse_start_tag big_chunk).1 = [105, 113] := by decide

/-- A closing tag is at least three bytes long, so a one-byte chunk never
ends with it. -/
lemma ends_with_tag_single (tag : Bytes) (b : Nat) :
    ends_with_tag tag [b] = false := by
  rw [ends_with_tag]
  by_contra h
  rw [Bool.not_eq_false, List.isSuffixOf_iff_suffix] at h
  have hle := h.length_le
  simp only [List.length_cons, List.length_append] at hle
  omega

/-- While a reassembly is active, chunks that do not end with the closing
tag are accumulated; a final chunk that does closes the buffer and
dispatches the concatenation. -/
lemma run_framer_accumulate (tag buf clast : Bytes) (middles : List Bytes)
    (hm : ∀ c ∈ middles, ends_with_tag tag c = false)
    (hl : ends_with_tag tag clast = true) :
    run_framer (some (buf, tag)) (middles ++ [clast]) =
      (none, [buf ++ middles.flatten ++ clast]) := by
  induction middles generalizing buf with
  | nil => simp [run_framer, data_received, hl]
  | cons c cs ih =>
    have hc : ends_with_tag tag c = false := hm c (by simp)
    have hcs : ∀ x ∈ cs, ends_with_tag tag x = false :=
      fun x hx => hm x (by simp [hx])
    simp [run_framer, data_received, hc, ih (buf ++ c) hcs, List.append_assoc]

/-! ### Claims about the framing layer -/

/-- Claim C1: with no PartialBuffer active, a chunk shorter than 16384
bytes is dispatched immediately and unchanged as one complete stanza,
while a chunk of 16384 bytes or more produces no dispatch and starts a
PartialBuffer holding the chunk together with the start tag extracted by
`parse_start_tag` (strip leading `<`, cut at the first `>`, cut at the
first space, strip one trailing `/`). -/
theorem idle_framer_step (data : Bytes) :
    (data.length < 16384 → data_received none data = (none, [data])) ∧
    (16384 ≤ data.length →
      data_received none data = (some (data, (parse_start_tag data).1), [])) := by
  constructor
  · intro h
    simp [data_received, h]
  · intro h
    simp [data_received, Nat.not_lt.mpr h]

/-- Witness for C1: a 3-byte chunk is dispatched unchanged; the 16384-byte
test chunk starts a PartialBuffer with tag `iq`. -/
theorem idle_framer_step_witness :
    data_received none [60, 107, 62] = (none, [[60, 107, 62]]) ∧
    data_received none big_chunk =
      (some (big_chunk, (parse_start_tag big_chunk).1), []) :=
  ⟨(idle_framer_step [60, 107, 62]).1 (by decide),
   (idle_framer_step big_chunk).2 (le_of_eq big_chunk_length.symm)⟩

/-- Counterexample to claim C2 as stated: the code tests whether the newly
arrived chunk — not the appended buffer — ends with the closing tag. The
stanza `big_chunk ++ "</iq" ++ ">"` is split into three in-order chunks
with the first of length 16384; after all three are delivered the
accumulated buffer ends with `</iq>` (so per the claim the stanza is
complete and must be dispatched exactly once), yet the code dispatches
nothing and keeps the buffer open. -/
theorem framer_chunk_boundary_counterexample :
    16384 ≤ big_chunk.length ∧
    ends_with_tag (parse_start_tag big_chunk).1
      (big_chunk ++ [60, 47, 105, 113] ++ [62]) = true ∧
    run_framer none [big_chunk, [60, 47, 105, 113], [62]] =
      (some ((big_chunk ++ [60, 47, 105, 113]) ++ [62], [105, 113]), []) := by
  have step1 : data_received none big_chunk = (some (big_chunk, [105, 113]), []) := by
    simp [data_received, big_chunk_length, big_chunk_tag]
  have step2 :
      data_received (some (big_chunk, [105, 113])) [60, 47, 105, 113] =
        (some (big_chunk ++ [60, 47, 105, 113], [105, 113]), []) := by
    have h : ends_with_tag [105, 113] [60, 47, 105, 113] = false := by decide
    simp [data_received, h]
  have step3 :
      data_received (some (big_chunk ++ [60, 47, 105, 113], [105, 113])) [62] =
        (some ((big_chunk ++ [60, 47, 105, 113]) ++ [62], [105, 113]), []) := by
    have h : ends_with_tag [105, 113] [62] = false := by decide
    simp [data_received, h]
  refine ⟨le_of_eq big_chunk_length.symm, ?_, ?_⟩
  · rw [big_chunk_tag]
    have h2 : big_chunk ++ [60, 47, 105, 113] ++ [62] =
        big_chunk ++ [60, 47, 105, 113, 62] := by simp
    rw [h2, ends_with_tag]
    simp only [List.isSuffixOf_iff_suffix]
    exact List.suffix_append big_chunk _
  · simp [run_framer, step1, step2, step3]

/-- Claim C2 (amended): while a PartialBuffer is active the chunk is
appended, and the stanza is complete exactly when the newly delivered
chunk's own trailing bytes equal `</` + stored-tag + `>`; on completion
the concatenation of all accumulated chunks is dispatched exactly once
and the buffer is cleared. Consequently a stanza split into in-order
chunks — first chunk at least 16384 bytes, no intermediate chunk ending
with the closing tag, final chunk ending with it — is reconstructed
byte-identically and dispatched exactly once. -/
theorem partial_framer_step_and_reassembly :
    (∀ buf tag data, ends_with_tag tag data = true →
      data_received (some (buf, tag)) data = (none, [buf ++ data])) ∧
    (∀ buf tag data, ends_with_tag tag data = false →
      data_received (some (buf, tag)) data = (some (buf ++ data, tag), [])) ∧
    (∀ c1 middles clast, 16384 ≤ c1.length →
      (∀ c ∈ middles, ends_with_tag (parse_start_tag c1).1 c = false) →
      ends_with_tag (parse_start_tag c1).1 clast = true →
      run_framer none (c1 :: (middles ++ [clast])) =
        (none, [c1 ++ middles.flatten ++ clast])) := by
  refine ⟨?_, ?_, ?_⟩
  · intro buf tag data h
    simp [data_received, h]
  · intro buf tag data h
    simp [data_received, h]
  · intro c1 middles clast h1 hm hl
    have hstep : data_received none c1 =
        (some (c1, (parse_start_tag c1).1), []) := by
      simp [data_received, Nat.not_lt.mpr h1]
    simp [run_framer, hstep, run_framer_accumulate _ _ _ _ hm hl]

/-- Witness for C2 (amended): a completing chunk dispatches buffer plus
chunk; a non-completing chunk accumulates; the test stanza split as
`big_chunk`, `"</iq"`, `"</iq>"` is reassembled byte-identically with
exactly one dispatch. -/
theorem partial_framer_step_and_reassembly_witness :
    data_received (some ([60, 107, 62], [107])) [60, 47, 107, 62] =
      (none, [[60, 107, 62] ++ [60, 47, 107, 62]]) ∧
    data_received (some ([60, 107, 62], [107])) [104, 105] =
      (some ([60, 107, 62] ++ [104, 105], [107]), []) ∧
    run_framer none [big_chunk, [60, 47, 105, 113], [60, 47, 105, 113, 62]] =
      (none, [big_chunk ++ [[60, 47, 105, 113]].flatten ++ [60, 47, 105, 113, 62]]) :=
  ⟨partial_framer_step_and_reassembly.1 _ _ _ (by decide),
   partial_framer_step_and_reassembly.2.1 _ _ _ (by decide),
   partial_framer_step_and_reassembly.2.2 big_chunk [[60, 47, 105, 113]] _
     (le_of_eq big_chunk_length.symm)
     (by rw [big_chunk_tag]; decide)
     (by rw [big_chunk_tag]; decide)⟩

/-- Claim C10: the keep-alive check runs only after framing. A single
space chunk arriving while a PartialBuffer is active is appended to the
buffer with no echo and no dispatch; the echo-and-no-dispatch behavior
holds exactly when no PartialBuffer is active. -/
theorem keep_alive_only_after_framing (parse : Bytes → Stanza) (st : AuthState) :
    (∀ buf tag, connection_step parse st (some (buf, tag)) [32] =
      (some (buf ++ [32], tag), [])) ∧
    connection_step parse st none [32] =
      (none, [.ok ⟨st, [[32]], []⟩]) := by
  constructor
  · intro buf tag
    simp [connection_step, data_received, ends_with_tag_single]
  · simp [connection_step, data_received, on_new_data_received]

/-- Claim C8: a dispatched payload of exactly one ASCII space byte causes
exactly one space byte to be sent back, with zero stanza routings and zero
handler invocations — independently of the XML parser. -/
theorem keep_alive_echo (parse : Bytes → Stanza) (st : AuthState) :
    on_new_data_received parse st [32] = .ok ⟨st, [[32]], []⟩ := by
  simp [on_new_data_received]

/-! ### Claims about message dispatch -/

/-- Counterexample to claim C3 as stated: a `message` stanza with no
`xmlns` attribute and no `type` attribute does not fall back to the
`jabber:client` handler — evaluating `xmpp_message['type']` raises
`KeyError`. -/
theorem message_without_type_counterexample :
    lookupAttr ⟨"message", [], false, none⟩ "xmlns" = none ∧
    handle_xmpp_message ⟨"message", [], false, none⟩ = .error .keyError :=
  ⟨rfl, rfl⟩

/-- Claim C3 (amended): (a) a message with an explicit `xmlns` attribute
is routed through that namespace's registry dispatch regardless of any
receipt type-marker or group marker; (b) without `xmlns`, a receipt
carrying a group marker goes to the group-receipt pathway; (c) without
`xmlns` but with a `type` attribute, a receipt without a group marker or
a non-receipt message falls back to the default `jabber:client` handler
(a message with neither `xmlns` nor `type` instead raises `KeyError`). -/
theorem message_dispatch_precedence :
    (∀ m ns, lookupAttr m "xmlns" = some ns →
      handle_xmpp_message m = .ok (handle_xmlns ns m)) ∧
    (∀ m, lookupAttr m "xmlns" = none → lookupAttr m "type" = some "receipt" →
      m.hasG = true → handle_xmpp_message m = .ok [.groupReceiptsCallback m]) ∧
    (∀ m t, lookupAttr m "xmlns" = none → lookupAttr m "type" = some t →
      t ≠ "receipt" ∨ m.hasG = false →
      handle_xmpp_message m = .ok [.invokeHandler "jabber:client" m]) := by
  refine ⟨?_, ?_, ?_⟩
  · intro m ns h
    simp [handle_xmpp_message, h]
  · intro m h1 h2 h3
    simp [handle_xmpp_message, h1, h2, h3]
  · intro m t h1 h2 h3
    rcases h3 with h3 | h3
    · simp [handle_xmpp_message, h1, h2, h3]
    · rcases eq_or_ne t "receipt" with ht | ht
      · simp [handle_xmpp_message, h1, h2, ht, h3]
      · simp [handle_xmpp_message, h1, h2, ht]

/-- Witness for C3 (amended), at three concrete stanzas: a receipt with a
group marker that still dispatches by its explicit `kik:groups` namespace;
a receipt with a group marker and no namespace that goes to the
group-receipt pathway; a receipt without a group marker that falls back to
`jabber:client`. -/
theorem message_dispatch_precedence_witness :
    handle_xmpp_message
        ⟨"message", [("xmlns", "kik:groups"), ("type", "receipt")], true, none⟩ =
      .ok (handle_xmlns "kik:groups"
        ⟨"message", [("xmlns", "kik:groups"), ("type", "receipt")], true, none⟩) ∧
    handle_xmpp_message ⟨"message", [("type", "receipt")], true, none⟩ =
      .ok [.groupReceiptsCallback ⟨"message", [("type", "receipt")], true, none⟩] ∧
    handle_xmpp_message ⟨"message", [("type", "receipt")], false, none⟩ =
      .ok [.invokeHandler "jabber:client"
        ⟨"message", [("type", "receipt")], false, none⟩] :=
  ⟨message_dispatch_precedence.1 _ "kik:groups" rfl,
   message_dispatch_precedence.2.1 _ rfl rfl rfl,
   message_dispatch_precedence.2.2 _ "receipt" rfl rfl (Or.inr rfl)⟩

/-- Claim C7: a decoded stanza with no registered handler — an `iq` whose
query namespace is absent from the registry, a `message` whose `xmlns` is
absent from the registry, or any unrecognized top-level tag — is logged
and dropped: no handler invoked, no exception raised, normal completion. -/
theorem unroutable_stanza_dropped (st : AuthState) :
    (∀ s ns, s.name = "iq" → s.query = some ⟨some ns⟩ →
      ns ∉ xml_namespace_handler_keys → route_stanza st s = .ok (st, [])) ∧
    (∀ s ns, s.name = "message" → lookupAttr s "xmlns" = some ns →
      ns ∉ xml_namespace_handler_keys → route_stanza st s = .ok (st, [])) ∧
    (∀ s, s.name ∉ (["k", "iq", "message", "stc"] : List String) →
      route_stanza st s = .ok (st, [])) := by
  refine ⟨?_, ?_, ?_⟩
  · intro s ns hname hq hns
    simp [route_stanza, hname, handle_received_iq_element, hq, handle_xmlns, hns]
  · intro s ns hname hx hns
    simp [route_stanza, hname, handle_xmpp_message, hx, handle_xmlns, hns]
  · intro s hname
    simp only [List.mem_cons, List.mem_singleton, not_or] at hname
    obtain ⟨h1, h2, h3, h4, -⟩ := hname
    simp [route_stanza, h1, h2, h3, h4]

/-- Witness for C7: an `iq` with unregistered query namespace, a `message`
with unregistered namespace, and a stanza with an unknown tag are all
dropped without error. -/
theorem unroutable_stanza_dropped_witness :
    route_stanza ⟨false, false, false⟩ ⟨"iq", [], false, some ⟨some "kik:bogus"⟩⟩ =
      .ok (⟨false, false, false⟩, []) ∧
    route_stanza ⟨false, false, false⟩ ⟨"message", [("xmlns", "kik:bogus")], false, none⟩ =
      .ok (⟨false, false, false⟩, []) ∧
    route_stanza ⟨false, false, false⟩ ⟨"presence", [], false, none⟩ =
      .ok (⟨false, false, false⟩, []) :=
  ⟨(unroutable_stanza_dropped _).1 _ "kik:bogus" rfl rfl (by decide),
   (unroutable_stanza_dropped _).2.1 _ "kik:bogus" rfl rfl (by decide),
   (unroutable_stanza_dropped _).2.2 _ (by decide)⟩

/-! ### Claims about the handshake sequencer -/

lemma count_logins_cons (acts : List Action) (outs : List (List Action)) :
    count_logins (acts :: outs) =
      acts.countP is_login_request + count_logins outs := by
  simp [count_logins]

lemma count_logins_append (a b : List (List Action)) :
    count_logins (a ++ b) = count_logins a + count_logins b := by
  simp [count_logins]

lemma success_no_ts_spec (k : Stanza) (h : success_no_ts k = true) :
    lookupAttr k "ok" = some "1" ∧ hasAttr k "ts" = false := by
  rw [success_no_ts, Bool.and_eq_true, beq_iff_eq, Bool.not_eq_true'] at h
  exact h

/-- A success acknowledgement without `ts`, arriving with the deferred
flag set, issues exactly the login request and clears the flag. -/
lemma k_step_success_flag (st : AuthState) (k : Stanza)
    (h1 : st.shouldLoginOnConnection = true) (h2 : success_no_ts k = true) :
    k_step st k =
      ({ st with connected := true, shouldLoginOnConnection := false },
       [.loginRequest]) := by
  obtain ⟨hok, hts⟩ := success_no_ts_spec k h2
  simp [k_step, handle_received_k_element, hok, hts, h1]

/-- Any other `k` element issues no login and leaves the flag unchanged. -/
lemma k_step_not_success (st : AuthState) (k : Stanza)
    (h : success_no_ts k = false) :
    (k_step st k).1.shouldLoginOnConnection = st.shouldLoginOnConnection ∧
    (k_step st k).2.countP is_login_request = 0 := by
  rcases hok : lookupAttr k "ok" with _ | ok
  · simp [k_step, handle_received_k_element, hok]
  · by_cases h1 : ok = "1"
    · subst h1
      have hts : hasAttr k "ts" = true := by
        rw [success_no_ts, hok] at h
        simpa using h
      simp [k_step, handle_received_k_element, hok, hts,
        List.countP_cons, List.countP_nil, is_login_request]
    · simp [k_step, handle_received_k_element, hok, h1,
        List.countP_cons, List.countP_nil, is_login_request]

/-- With the deferred flag cleared, no `k` element can issue a login. -/
lemma k_step_no_flag (st : AuthState) (k : Stanza)
    (h : st.shouldLoginOnConnection = false) :
    (k_step st k).1.shouldLoginOnConnection = false ∧
    (k_step st k).2.countP is_login_request = 0 := by
  rcases hok : lookupAttr k "ok" with _ | ok
  · simp [k_step, handle_received_k_element, hok, h]
  · by_cases h1 : ok = "1"
    · subst h1
      by_cases hts : hasAttr k "ts"
      · simp [k_step, handle_received_k_element, hok, hts, h,
          List.countP_cons, List.countP_nil, is_login_request]
      · simp [k_step, handle_received_k_element, hok, hts, h,
          List.countP_cons, List.countP_nil, is_login_request]
    · simp [k_step, handle_received_k_element, hok, h1, h,
        List.countP_cons, List.countP_nil, is_login_request]

lemma run_k_no_flag (st : AuthState) (ks : List Stanza)
    (h : st.shouldLoginOnConnection = false) :
    (run_k st ks).1.shouldLoginOnConnection = false ∧
    count_logins (run_k st ks).2 = 0 := by
  induction ks generalizing st with
  | nil => simp [run_k, count_logins, h]
  | cons k ks ih =>
    obtain ⟨hflag, hcount⟩ := k_step_no_flag st k h
    obtain ⟨ihflag, ihcount⟩ := ih (k_step st k).1 hflag
    simp [run_k, count_logins_cons, hcount, ihflag, ihcount]

lemma run_k_no_success (st : AuthState) (ks : List Stanza)
    (h : ∀ k ∈ ks, success_no_ts k = false) :
    (run_k st ks).1.shouldLoginOnConnection = st.shouldLoginOnConnection ∧
    count_logins (run_k st ks).2 = 0 := by
  induction ks generalizing st with
  | nil => simp [run_k, count_logins]
  | cons k ks ih =>
    have hk : success_no_ts k = false := h k (List.mem_cons_self k ks)
    have hks : ∀ x ∈ ks, success_no_ts x = false :=
      fun x hx => h x (List.mem_cons_of_mem k hx)
    obtain ⟨hflag, hcount⟩ := k_step_not_success st k hk
    obtain ⟨ihflag, ihcount⟩ := ih (k_step st k).1 hks
    refine ⟨by rw [run_k] at *; simp_all, ?_⟩
    simp [run_k, count_logins_cons, hcount, ihcount]

lemma run_k_append (st : AuthState) (xs ys : List Stanza) :
    run_k st (xs ++ ys) =
      ((run_k (run_k st xs).1 ys).1,
       (run_k st xs).2 ++ (run_k (run_k st xs).1 ys).2) := by
  induction xs generalizing st with
  | nil => simp [run_k]
  | cons x xs ih => simp [run_k, ih]

/-- Counterexample to claim C4 as stated: the deferred-login flag
(`should_login_on_connection`, client.py line 62) is set whenever username
and password are given, whether or not a node is also given. With
username, password AND node all supplied, the first success
acknowledgement lacking `ts` still triggers a login request — so a login
is not issued "only when credentials were given without a node". -/
theorem login_issued_with_node_counterexample :
    should_login_on_connection_init (some "user") (some "pw") (some "node") = true ∧
    (run_k ⟨false, false,
        should_login_on_connection_init (some "user") (some "pw") (some "node")⟩
      [⟨"k", [("ok", "1")], false, none⟩]).2 = [[.loginRequest]] :=
  ⟨rfl, rfl⟩

/-- Claim C4 (amended): when the deferred-login flag is set (username and
password supplied — with or without a node), exactly one login request is
sent, in reaction to the first success acknowledgement (`ok = "1"`)
lacking the `ts` attribute: zero logins are emitted before it, the flag is
cleared as the login is issued, no further login follows, and without such
an acknowledgement no login is emitted; with the flag unset, no login is
ever emitted. -/
theorem deferred_login_exactly_once :
    (∀ (st0 : AuthState) (pre : List Stanza) (k0 : Stanza) (rest : List Stanza),
      st0.shouldLoginOnConnection = true →
      (∀ k ∈ pre, success_no_ts k = false) →
      success_no_ts k0 = true →
      count_logins (run_k st0 pre).2 = 0 ∧
      (run_k st0 pre).1.shouldLoginOnConnection = true ∧
      k_step (run_k st0 pre).1 k0 =
        ({ (run_k st0 pre).1 with
            connected := true, shouldLoginOnConnection := false },
         [.loginRequest]) ∧
      count_logins (run_k st0 (pre ++ k0 :: rest)).2 = 1 ∧
      (run_k st0 (pre ++ k0 :: rest)).1.shouldLoginOnConnection = false) ∧
    (∀ (st0 : AuthState) (ks : List Stanza),
      st0.shouldLoginOnConnection = true →
      (∀ k ∈ ks, success_no_ts k = false) →
      count_logins (run_k st0 ks).2 = 0) ∧
    (∀ (st0 : AuthState) (ks : List Stanza),
      st0.shouldLoginOnConnection = false →
      count_logins (run_k st0 ks).2 = 0) := by
  refine ⟨?_, ?_, ?_⟩
  · intro st0 pre k0 rest h0 hpre hk0
    obtain ⟨hflagpre, hcountpre⟩ := run_k_no_success st0 pre hpre
    have hflag1 : (run_k st0 pre).1.shouldLoginOnConnection = true := by
      rw [hflagpre, h0]
    have hstep := k_step_success_flag _ k0 hflag1 hk0
    obtain ⟨hafterflag, haftercount⟩ :=
      run_k_no_flag
        ({ (run_k st0 pre).1 with
            connected := true, shouldLoginOnConnection := false }) rest (by simp)
    refine ⟨hcountpre, hflag1, hstep, ?_, ?_⟩
    · rw [run_k_append, count_logins_append, hcountpre]
      simp [run_k, hstep, count_logins_cons, haftercount,
        List.countP_cons, List.countP_nil, is_login_request]
    · rw [run_k_append]
      simp [run_k, hstep, hafterflag]
  · intro st0 ks h0 hks
    exact (run_k_no_success st0 ks hks).2
  · intro st0 ks h0
    exact (run_k_no_flag st0 ks h0).2

/-- Witness for C4 (amended): a trace of a success-with-`ts` ack, then a
success-without-`ts` ack, then another success-without-`ts` ack yields
exactly one login request, and the flag ends cleared. -/
theorem deferred_login_exactly_once_witness :
    count_logins (run_k ⟨false, false, true⟩
      ([⟨"k", [("ok", "1"), ("ts", "1685")], false, none⟩] ++
        ⟨"k", [("ok", "1")], false, none⟩ ::
        [⟨"k", [("ok", "1")], false, none⟩])).2 = 1 ∧
    (run_k ⟨false, false, true⟩
      ([⟨"k", [("ok", "1"), ("ts", "1685")], false, none⟩] ++
        ⟨"k", [("ok", "1")], false, none⟩ ::
        [⟨"k", [("ok", "1")], false, none⟩])).1.shouldLoginOnConnection = false :=
  ⟨((deferred_login_exactly_once.1 ⟨false, false, true⟩
      [⟨"k", [("ok", "1"), ("ts", "1685")], false, none⟩]
      ⟨"k", [("ok", "1")], false, none⟩
      [⟨"k", [("ok", "1")], false, none⟩] rfl (by decide) (by decide)).2.2.2.1),
   ((deferred_login_exactly_once.1 ⟨false, false, true⟩
      [⟨"k", [("ok", "1"), ("ts", "1685")], false, none⟩]
      ⟨"k", [("ok", "1")], false, none⟩
      [⟨"k", [("ok", "1")], false, none⟩] rfl (by decide) (by decide)).2.2.2.2)⟩

/-- Claim C5: with username, password and node all known, the one payload
sent on connection establishment is the session-establishment element and
never the anonymous-open literal; with any of the three missing, it is the
anonymous-open literal; and after a node-discovery reconnection
(`_establish_authenticated_session`) the handshake takes the
credential-proof path. -/
theorem connection_open_payload :
    (∀ u p n, on_connection_made ⟨some u, some p, some n⟩ =
        .establishAuthSession n u p ∧
      on_connection_made ⟨some u, some p, some n⟩ ≠ .anonymous ∧
      on_connection_made_sends ⟨some u, some p, some n⟩ =
        [.establishAuthSession n u p]) ∧
    (∀ st : ClientCreds,
      st.username = none ∨ st.password = none ∨ st.kik_node = none →
      on_connection_made st = .anonymous) ∧
    (∀ (st : ClientCreds) (u p node : String),
      st.username = some u → st.password = some p →
      on_connection_made (establish_authenticated_session st node) =
        .establishAuthSession node u p) := by
  refine ⟨?_, ?_, ?_⟩
  · intro u p n
    exact ⟨rfl, by simp [on_connection_made], rfl⟩
  · rintro ⟨u, p, n⟩ h
    rcases u with _ | u <;> rcases p with _ | p <;> rcases n with _ | n <;>
      simp_all [on_connection_made]
  · rintro ⟨u0, p0, n0⟩ u p node h1 h2
    simp only [ClientCreds.mk.injEq] at h1 h2
    simp_all [establish_authenticated_session, on_connection_made]

/-- Witness for C5: concrete credentials with and without a node, and a
node-discovery reconnection. -/
theorem connection_open_payload_witness :
    on_connection_made ⟨some "user", some "pw", some "node_abc"⟩ =
      .establishAuthSession "node_abc" "user" "pw" ∧
    on_connection_made ⟨some "user", some "pw", none⟩ = .anonymous ∧
    on_connection_made
        (establish_authenticated_session ⟨some "user", some "pw", none⟩ "node_abc") =
      .establishAuthSession "node_abc" "user" "pw" :=
  ⟨(connection_open_payload.1 "user" "pw" "node_abc").1,
   connection_open_payload.2.1 ⟨some "user", some "pw", none⟩ (Or.inr (Or.inr rfl)),
   connection_open_payload.2.2 ⟨some "user", some "pw", none⟩ "user" "pw" "node_abc"
     rfl rfl⟩

/-- Claim C6: a public send blocks (returns nothing) while every
observation of the `connected` flag is false; once a true observation
arrives it marshals the write(s) — a single payload as one write, a list
of payloads in list order — and returns the element's correlation id,
one id covering all payloads. -/
theorem send_blocks_then_marshals :
    (∀ (samples : List Bool) (m : OutElement),
      samples.any (fun b => b) = false → send_xmpp_element samples m = none) ∧
    (∀ (samples : List Bool) (m : OutElement) (p : Bytes),
      samples.any (fun b => b) = true → m.serialized = .inl p →
      send_xmpp_element samples m = some ([p], m.message_id)) ∧
    (∀ (samples : List Bool) (m : OutElement) (ps : List Bytes),
      samples.any (fun b => b) = true → m.serialized = .inr ps →
      send_xmpp_element samples m = some (ps, m.message_id)) := by
  refine ⟨?_, ?_, ?_⟩
  · intro samples m h
    simp [send_xmpp_element, h]
  · intro samples m p h hs
    simp [send_xmpp_element, h, hs]
  · intro samples m ps h hs
    simp [send_xmpp_element, h, hs]

/-- Witness for C6: blocked while unconnected, single payload, and a
three-payload list marshaled in order under one id. -/
theorem send_blocks_then_marshals_witness :
    send_xmpp_element [false, false] ⟨"mid-1", .inl [107]⟩ = none ∧
    send_xmpp_element [false, true] ⟨"mid-1", .inl [107]⟩ = some ([[107]], "mid-1") ∧
    send_xmpp_element [false, true] ⟨"mid-2", .inr [[107], [108], [109]]⟩ =
      some ([[107], [108], [109]], "mid-2") :=
  ⟨send_blocks_then_marshals.1 [false, false] _ (by decide),
   send_blocks_then_marshals.2.1 [false, true] _ [107] (by decide) rfl,
   send_blocks_then_marshals.2.2 [false, true] _ [[107], [108], [109]] (by decide) rfl⟩

/-- Counterexample to claim C9 as stated: `is_group_jid` tests substring
containment (Python `in`), not a domain-suffix match. The address
`bob@talk.kik.comx` matches neither recognized domain suffix, so per the
claim it must raise `KikApiException`; the code instead classifies it as
not-a-group because it contains `@talk.kik.com` as a substring. -/
theorem jid_suffix_counterexample :
    ("@talk.kik.com".toList).isSuffixOf ("bob@talk.kik.comx".toList) = false ∧
    ("@groups.kik.com".toList).isSuffixOf ("bob@talk.kik.comx".toList) = false ∧
    is_group_jid ("bob@talk.kik.comx".toList) = .ok false := by
  refine ⟨by decide, by decide, rfl⟩

/-- Claim C9 (amended): an address containing `@talk.kik.com` as a
substring is classified as not-a-group; otherwise an address containing
`@groups.kik.com` is classified as a group; an address containing neither
raises `KikApiException` synchronously, before any network interaction
(in `send_chat_message` the error propagates before the send primitive
consults the connection or marshals anything). -/
theorem jid_validation :
    (∀ jid, containsSub ("@talk.kik.com".toList) jid = true →
      is_group_jid jid = .ok false) ∧
    (∀ jid, containsSub ("@talk.kik.com".toList) jid = false →
      containsSub ("@groups.kik.com".toList) jid = true →
      is_group_jid jid = .ok true) ∧
    (∀ jid, containsSub ("@talk.kik.com".toList) jid = false →
      containsSub ("@groups.kik.com".toList) jid = false →
      is_group_jid jid = .error (.kikApiError "Not a valid jid")) ∧
    (∀ samples jid ge ue,
      containsSub ("@talk.kik.com".toList) jid = false →
      containsSub ("@groups.kik.com".toList) jid = false →
      send_chat_message samples jid ge ue =
        .error (.kikApiError "Not a valid jid")) := by
  refine ⟨?_, ?_, ?_, ?_⟩
  · intro jid h
    simp only [is_group_jid, h, if_true]
  · intro jid h1 h2
    simp only [is_group_jid, h1, h2, if_true, Bool.false_eq_true, if_false]
  · intro jid h1 h2
    simp only [is_group_jid, h1, h2, Bool.false_eq_true, if_false]
  · intro samples jid ge ue h1 h2
    simp only [send_chat_message, is_group_jid, h1, h2, Bool.false_eq_true, if_false]

/-- Witness for C9 (amended): a user address, a group address, and an
invalid address — the last rejected synchronously by `send_chat_message`. -/
theorem jid_validation_witness :
    is_group_jid ("alice_ejs@talk.kik.com".toList) = .ok false ∧
    is_group_jid ("1100_groupid@groups.kik.com".toList) = .ok true ∧
    is_group_jid ("alice".toList) = .error (.kikApiError "Not a valid jid") ∧
    send_chat_message [true] ("alice".toList) ⟨"g", .inl []⟩ ⟨"u", .inl []⟩ =
      .error (.kikApiError "Not a valid jid") :=
  ⟨jid_validation.1 _ (by decide),
   jid_validation.2.1 _ (by decide) (by decide),
   jid_validation.2.2.1 _ (by decide) (by decide),
   jid_validation.2.2.2 [true] _ ⟨"g", .inl []⟩ ⟨"u", .inl []⟩ (by decide) (by decide)⟩

end KikSpec
